import Mathlib

/-!
Verification of the date-resolution and placement logic of
`sort_photos.py` (Google Photos takeout sorter).

The Python source is shallowly embedded: every pure fragment becomes a
Lean function with the source's name; effectful primitives (PIL image
opening, `os.listdir`, `os.path.isfile`, reading the sidecar JSON,
`os.path.getmtime`, `shutil.copy2`, HEIC decoding) are supplied by
explicit environment records, and a Python exception that a function may
let escape is modelled as `Except.error`.  Exceptions the source catches
are handled at the same place the `try/except` sits in the source.

Machine-level conventions of the model:
* `datetime` objects are `DateTime` records (year as `Int`, the rest `Nat`).
* `datetime.fromtimestamp` (local time) is `py_fromtimestamp off ts`
  where `off` is the fixed local-UTC offset in seconds;
  `datetime.utcfromtimestamp` is `py_fromtimestamp 0`.
* `current_year()` is an injected parameter `cy` (the spec's
  "injected clock"); the source reads the real clock there.
* Strings are ASCII; `str.lower` is `pyLower`, `\d` is `Char.isDigit`.
* `os.sep` is `"/"` (POSIX paths, as the source assumes).
-/

namespace GPhotos

/-- A Python `datetime` value: calendar date plus time of day. -/
structure DateTime where
  year : Int
  month : Nat
  day : Nat
  hour : Nat
  minute : Nat
  second : Nat
deriving Repr, DecidableEq

/-- Source `is_reasonable_year(year)`: `min_year <= year <= current_year()`
with the default `min_year = 2000` (the only form the source ever calls).
The current year is the injected parameter `cy`. -/
def is_reasonable_year (cy : Int) (year : Int) : Bool :=
  2000 ≤ year && year ≤ cy

/-- ASCII lower-casing, the model of Python `str.lower()` on the ASCII
filenames this program handles. -/
def pyLower (s : String) : String :=
  String.mk (s.toList.map Char.toLower)

/-- Boolean infix test on lists, the model of Python's `needle in haystack`
substring test (via `toList`). -/
def listInfixOf (needle : List Char) : List Char → Bool
  | [] => needle.isEmpty
  | c :: rest => needle.isPrefixOf (c :: rest) || listInfixOf needle rest

/-- Python `"needle" in s` on strings. -/
def strContains (s needle : String) : Bool :=
  listInfixOf needle.toList s.toList

/-- Python `s.endswith(suf)`. -/
def strEndsWith (s suf : String) : Bool :=
  suf.toList.isSuffixOf s.toList

/-- Numeric value of a list of ASCII digit characters. -/
def digitsToNat (cs : List Char) : Nat :=
  cs.foldl (fun a c => a * 10 + (c.toNat - 48)) 0

/-- Python `s.isdigit()` for ASCII: nonempty and all digits. -/
def pyIsDigit (cs : List Char) : Bool :=
  !cs.isEmpty && cs.all Char.isDigit

/-- Python ASCII whitespace, as stripped by `int(str)`. -/
def isPySpace (c : Char) : Bool :=
  c = ' ' || c = '\t' || c = '\n' || c = '\r' || c = '\x0b' || c = '\x0c'

/-- Python `int(s)` on a string: optional surrounding whitespace, optional
sign, then a nonempty digit run; `none` models the `ValueError`. -/
def pyInt? (s : String) : Option Int :=
  let cs := ((s.toList.dropWhile isPySpace).reverse.dropWhile isPySpace).reverse
  match cs with
  | '+' :: ds => if pyIsDigit ds then some (digitsToNat ds) else none
  | '-' :: ds => if pyIsDigit ds then some (-(digitsToNat ds : Int)) else none
  | ds => if pyIsDigit ds then some (digitsToNat ds) else none

/-- Gregorian leap-year test (used by the model of the `datetime` constructor). -/
def isLeap (y : Int) : Bool :=
  (Int.emod y 4 = 0 && !(Int.emod y 100 = 0)) || Int.emod y 400 = 0

/-- Days in a month of the proleptic Gregorian calendar. -/
def daysInMonth (y : Int) (m : Nat) : Nat :=
  if m = 2 then (if isLeap y then 29 else 28)
  else if m = 4 || m = 6 || m = 9 || m = 11 then 30 else 31

/-- Validity of arguments to Python's `datetime(year, month, day)`:
exactly the inputs on which the constructor does not raise `ValueError`. -/
def datetimeValid (y : Int) (m d : Nat) : Bool :=
  1 ≤ y && y ≤ 9999 && 1 ≤ m && m ≤ 12 && 1 ≤ d && d ≤ daysInMonth y m

/-- Python `datetime(y, m, d)` (midnight): `none` models the `ValueError`. -/
def mkDate? (y : Int) (m d : Nat) : Option DateTime :=
  if datetimeValid y m d then some ⟨y, m, d, 0, 0, 0⟩ else none

/-- Civil date from a count of days since 1970-01-01 (proleptic Gregorian);
the standard era-based algorithm, used to model Unix-epoch conversion. -/
def civilFromDays (z0 : Int) : Int × Nat × Nat :=
  let z : Int := z0 + 719468
  let era : Int := Int.fdiv z 146097
  let doe : Nat := (z - era * 146097).toNat
  let yoe : Nat := (doe - doe / 1460 + doe / 36524 - doe / 146096) / 365
  let y : Int := (yoe : Int) + era * 400
  let doy : Nat := doe - (365 * yoe + yoe / 4 - yoe / 100)
  let mp : Nat := (5 * doy + 2) / 153
  let d : Nat := doy - (153 * mp + 2) / 5 + 1
  let m : Nat := if mp < 10 then mp + 3 else mp - 9
  (if m ≤ 2 then y + 1 else y, m, d)

/-- Python `datetime.fromtimestamp(ts)` under a fixed local-UTC offset of
`off` seconds; `datetime.utcfromtimestamp ts` is `py_fromtimestamp 0 ts`.
`Except.error` models the exception CPython raises when the resulting year
leaves `datetime`'s 1..9999 range. -/
def py_fromtimestamp (off ts : Int) : Except Unit DateTime :=
  let t : Int := ts + off
  let days : Int := Int.fdiv t 86400
  let secs : Nat := (Int.emod t 86400).toNat
  match civilFromDays days with
  | (y, m, d) =>
    if 1 ≤ y && y ≤ 9999 then
      Except.ok ⟨y, m, d, secs / 3600, (secs / 60) % 60, secs % 60⟩
    else Except.error ()

/-- Model of `os.path.basename` for POSIX paths: the part after the last slash. -/
def os_basename (p : String) : String :=
  String.mk ((p.toList.reverse.takeWhile (fun c => c ≠ '/')).reverse)

/-- Model of `os.path.dirname` for POSIX paths: everything before the last slash,
with trailing slashes stripped unless the result is all slashes. -/
def os_dirname (p : String) : String :=
  let head := (p.toList.reverse.dropWhile (fun c => c ≠ '/')).reverse
  if head.all (fun c => c = '/') then String.mk head
  else String.mk ((head.reverse.dropWhile (fun c => c = '/')).reverse)

/-- Model of `os.path.splitext` for POSIX paths: split at the last dot of the
basename, unless every character before that dot in the basename is
itself a dot (so `.bashrc` keeps no extension). -/
def os_splitext (p : String) : String × String :=
  let cs := p.toList
  let bnRev := cs.reverse.takeWhile (fun c => c ≠ '/')
  let extRev := bnRev.takeWhile (fun c => c ≠ '.')
  if extRev.length = bnRev.length then (p, "")
  else if (bnRev.drop (extRev.length + 1)).all (fun c => c = '.') then (p, "")
  else (String.mk (cs.take (cs.length - extRev.length - 1)),
        String.mk ('.' :: extRev.reverse))

/-- Model of `os.path.join a b` for POSIX paths (two-argument form). -/
def os_join (a b : String) : String :=
  if b.toList.isPrefixOf "/".toList then b
  else if a = "" then b
  else if strEndsWith a "/" then a ++ b
  else a ++ "/" ++ b

/-- Python `dir_path.split(os.sep)` with `os.sep = "/"` (keeps empty pieces). -/
def splitOnSlash : List Char → List (List Char)
  | [] => [[]]
  | c :: t =>
    let r := splitOnSlash t
    if c = '/' then [] :: r
    else
      match r with
      | h :: t2 => (c :: h) :: t2
      | [] => [[c]]

/-! ## Embedded-metadata (EXIF) extractor -/

/-- Result of `Image.open(path).getexif()` for one file: either the whole
read raises (unreadable file, corrupt container), or it yields the tag
items in iteration order, with `ExifTags.TAGS` name resolution already
applied to each tag id.  An empty list is Python's falsy empty Exif dict. -/
inductive ExifRead where
  | raises
  | ok (tags : List (String × String))

/-- Consume exactly `n` leading digits, returning their value and the rest. -/
def takeDigitsAux : Nat → Nat → List Char → Option (Nat × List Char)
  | 0, acc, cs => some (acc, cs)
  | _ + 1, _, [] => none
  | n + 1, acc, c :: cs =>
    if c.isDigit then takeDigitsAux n (acc * 10 + (c.toNat - 48)) cs else none

/-- One 1-or-2-digit field of a CPython `_strptime` pattern such as
`(1[0-2]|0[1-9]|[1-9])`: the two-digit alternatives (accepted iff the
value lies in `[lo2, hi2]`) are tried before the single `\d` (accepted
iff in `[lo1, hi1]`).  Committing to the two-digit reading is faithful
here because in the format `"%Y:%m:%d %H:%M:%S"` every field is followed
by a colon, whitespace or the end of the string — never by a digit — so
the regex engine's backtrack from the two-digit to the one-digit
alternative can never turn a failed continuation into a success. -/
def parseField12 (lo2 hi2 lo1 hi1 : Nat) : List Char → Option (Nat × List Char)
  | c1 :: c2 :: rest =>
    if c1.isDigit && c2.isDigit then
      let v := (c1.toNat - 48) * 10 + (c2.toNat - 48)
      if lo2 ≤ v && v ≤ hi2 then some (v, rest)
      else
        let v1 := c1.toNat - 48
        if lo1 ≤ v1 && v1 ≤ hi1 then some (v1, c2 :: rest) else none
    else if c1.isDigit then
      let v1 := c1.toNat - 48
      if lo1 ≤ v1 && v1 ≤ hi1 then some (v1, c2 :: rest) else none
    else none
  | [c1] =>
    if c1.isDigit then
      let v1 := c1.toNat - 48
      if lo1 ≤ v1 && v1 ≤ hi1 then some (v1, []) else none
    else none
  | [] => none

/-- The `\s+` that `_strptime` substitutes for whitespace in the format:
one or more whitespace characters (greedily consumed; safe since the
following field starts with a digit). -/
def parseWs1 : List Char → Option (List Char)
  | c :: rest => if isPySpace c then some (rest.dropWhile isPySpace) else none
  | [] => none

/-- Model of `datetime.strptime(value, "%Y:%m:%d %H:%M:%S")`, following
CPython's `_strptime` field regexes: `%Y` is exactly four digits, month is
`1[0-2]|0[1-9]|[1-9]`, day is `3[01]|[12]\d|0[1-9]|[1-9]`, hour is
`2[0-3]|[0-1]\d|\d`, minute is `[0-5]\d|\d`, second is `6[0-1]|[0-5]\d|\d`,
the format's space matches a whitespace run, and the whole string must be
consumed.  The matched fields then go through the `datetime` constructor,
which raises (`none`) for impossible calendar days, year 0, and the leap
seconds 60-61 the second regex tolerates. -/
def parseExifDatetime (s : String) : Option DateTime :=
  match takeDigitsAux 4 0 s.toList with
  | none => none
  | some (y, cs1) =>
    match cs1 with
    | ':' :: cs2 =>
      match parseField12 1 12 1 9 cs2 with
      | none => none
      | some (mo, cs3) =>
        match cs3 with
        | ':' :: cs4 =>
          match parseField12 1 31 1 9 cs4 with
          | none => none
          | some (d, cs5) =>
            match parseWs1 cs5 with
            | none => none
            | some cs6 =>
              match parseField12 0 23 0 9 cs6 with
              | none => none
              | some (h, cs7) =>
                match cs7 with
                | ':' :: cs8 =>
                  match parseField12 0 59 0 9 cs8 with
                  | none => none
                  | some (mi, cs9) =>
                    match cs9 with
                    | ':' :: cs10 =>
                      match parseField12 0 61 0 9 cs10 with
                      | none => none
                      | some (se, cs11) =>
                        if cs11.isEmpty then
                          if datetimeValid (y : Int) mo d && h ≤ 23 && mi ≤ 59
                              && se ≤ 59 then
                            some ⟨(y : Int), mo, d, h, mi, se⟩
                          else none
                        else none
                    | _ => none
                | _ => none
        | _ => none
    | _ => none

/-- The capture-time tag names the source looks for. -/
def isDateTag (t : String) : Bool :=
  t = "DateTimeOriginal" || t = "DateTime"

/-- The `for tag_id, value in exif_data.items()` loop of `get_exif_datetime`:
the first tag whose name matches decides the whole outcome (parse failure
or an out-of-window year returns `None` from inside the loop). -/
def findExifLoop (cy : Int) : List (String × String) → Option DateTime
  | [] => none
  | (tag_name, value) :: rest =>
    if isDateTag tag_name then
      match parseExifDatetime value with
      | some dt => if is_reasonable_year cy dt.year then some dt else none
      | none => none
    else findExifLoop cy rest

/-- Source `get_exif_datetime(path)`: any exception while opening/reading is
swallowed (`except Exception`), a falsy (empty) Exif dict yields `None`,
otherwise the tag loop runs. -/
def get_exif_datetime (cy : Int) (exif : ExifRead) : Option DateTime :=
  match exif with
  | ExifRead.raises => none
  | ExifRead.ok [] => none
  | ExifRead.ok (t :: ts) => findExifLoop cy (t :: ts)

/-! ## Sidecar-record (JSON) extractor -/

/-- The directory as the sidecar search sees it: `os.listdir` order (or a
raised exception, which the source catches), plus the `os.path.isfile`
predicate. -/
structure DirListing where
  entries : List String
  listRaises : Bool
  isFile : String → Bool

/-- The `for fname in os.listdir(directory)` loop of `find_companion_json`:
skip non-`.json` names, require the media file's stem as a name prefix,
and return the first candidate that is a file. -/
def scanJsonGo (isFile : String → Bool) (directory base : String) :
    List String → Option String
  | [] => none
  | fname :: rest =>
    if !strEndsWith (pyLower fname) ".json" then scanJsonGo isFile directory base rest
    else if base.toList.isPrefixOf fname.toList then
      let candidate := os_join directory fname
      if isFile candidate then some candidate
      else scanJsonGo isFile directory base rest
    else scanJsonGo isFile directory base rest

/-- Source `find_companion_json(path)`: first the direct guess `path + ".json"`,
then the same-directory prefix scan; a listing exception is caught and
yields `None`. -/
def find_companion_json (dl : DirListing) (path : String) : Option String :=
  let base := (os_splitext path).1
  let directory := os_dirname path
  let filename_no_ext := os_basename base
  let guess := path ++ ".json"
  if dl.isFile guess then some guess
  else if dl.listRaises then none
  else scanJsonGo dl.isFile directory filename_no_ext dl.entries

/-- Parsed shape of a sidecar record for the three keys the source reads:
for each key, `none` = key absent, `some none` = key present but without a
`"timestamp"` field, `some (some s)` = its timestamp string. -/
structure SidecarData where
  photoTakenTime : Option (Option String)
  creationTime : Option (Option String)
  videoCreationTime : Option (Option String)

/-- Result of opening and `json.load`-ing one sidecar file: either some
exception (unreadable, malformed JSON — caught by the source), or data. -/
inductive JsonRead where
  | raises
  | ok (data : SidecarData)

/-- The key loop of `parse_date_from_json`, inside its `try`: an
`int(ts_str)` failure or a `fromtimestamp` failure raises out of the loop
(`Except.error`), while an out-of-window year just moves to the next key. -/
def goKeys (cy off : Int) : List (Option (Option String)) → Except Unit (Option DateTime)
  | [] => Except.ok none
  | entry :: rest =>
    match entry with
    | none => goKeys cy off rest
    | some none => goKeys cy off rest
    | some (some ts_str) =>
      match pyInt? ts_str with
      | none => Except.error ()
      | some v =>
        match py_fromtimestamp off v with
        | Except.error e => Except.error e
        | Except.ok dt =>
          if is_reasonable_year cy dt.year then Except.ok (some dt)
          else goKeys cy off rest

/-- Source `parse_date_from_json(json_path)`: reads `photoTakenTime`,
`creationTime`, `videoCreationTime` in that order; every exception inside
(including bad `int(...)`) is caught at function level and yields `None`.
Note the source interprets the epoch with `datetime.fromtimestamp`,
i.e. in local time (`off`), not UTC. -/
def parse_date_from_json (cy off : Int) (j : JsonRead) : Option DateTime :=
  match j with
  | JsonRead.raises => none
  | JsonRead.ok data =>
    match goKeys cy off [data.photoTakenTime, data.creationTime, data.videoCreationTime] with
    | Except.error _ => none
    | Except.ok r => r

/-! ## Filename-pattern extractor -/

/-- Source `parse_epoch(epoch_str)`: 9/10 digits as seconds, 13 digits as
milliseconds (CPython's float division by 1000 never shifts the calendar
date for digit strings of this length, so integer division models it);
other lengths, or a non-digit string, yield `None`.  Uses
`datetime.utcfromtimestamp`, i.e. UTC. -/
def parse_epoch (cy : Int) (epoch_str : String) : Option DateTime :=
  if !pyIsDigit epoch_str.toList then none
  else
    let len := epoch_str.toList.length
    if len = 9 || len = 10 then
      match py_fromtimestamp 0 (digitsToNat epoch_str.toList : Nat) with
      | Except.error _ => none
      | Except.ok dt => if is_reasonable_year cy dt.year then some dt else none
    else if len = 13 then
      match py_fromtimestamp 0 ((digitsToNat epoch_str.toList / 1000 : Nat) : Int) with
      | Except.error _ => none
      | Except.ok dt => if is_reasonable_year cy dt.year then some dt else none
    else none

/-- The separator class `[-_]` of the filename/directory patterns. -/
def isSepChar (c : Char) : Bool := c = '-' || c = '_'

/-- The optional separator `[-_]?`: consume one separator if present (digits and separators are
disjoint, so the regex's optional group is deterministic here). -/
def skipSep : List Char → List Char
  | [] => []
  | c :: rest => if isSepChar c then rest else c :: rest

/-- One anchored attempt of the strict pattern
`(\d{4})[-_]?(\d{2})[-_]?(\d{2})`. -/
def matchStrictAt (cs : List Char) : Option (Nat × Nat × Nat) :=
  match takeDigitsAux 4 0 cs with
  | none => none
  | some (y, cs1) =>
    match takeDigitsAux 2 0 (skipSep cs1) with
    | none => none
    | some (m, cs2) =>
      match takeDigitsAux 2 0 (skipSep cs2) with
      | none => none
      | some (d, _) => some (y, m, d)

/-- Model of `re.search` for the strict pattern: leftmost start position wins. -/
def searchStrict : List Char → Option (Nat × Nat × Nat)
  | [] => none
  | c :: rest =>
    match matchStrictAt (c :: rest) with
    | some r => some r
    | none => searchStrict rest

/-- Source `parse_strict_filename_date(filename)`: search the lower-cased name,
then validate ranges and the window before constructing the date; any
`ValueError` is caught and yields `None`. -/
def parse_strict_filename_date (cy : Int) (filename : String) : Option DateTime :=
  match searchStrict (pyLower filename).toList with
  | none => none
  | some (y, m, d) =>
    if is_reasonable_year cy (y : Int) && (1 ≤ m && m ≤ 12) && (1 ≤ d && d ≤ 31) then
      mkDate? (y : Int) m d
    else none

/-- The month alternation `(0[1-9]|1[0-2])` as a two-character test. -/
def monthPair (m1 m2 : Char) : Bool :=
  (m1 = '0' && m2.isDigit && m2 ≠ '0') ||
    (m1 = '1' && (m2 = '0' || m2 = '1' || m2 = '2'))

/-- One anchored attempt of `(20[0-9]{2})(0[1-9]|1[0-2])([0-3][0-9])`. -/
def match8At : List Char → Option (Nat × Nat × Nat)
  | '2' :: '0' :: a :: b :: m1 :: m2 :: d1 :: d2 :: _ =>
    if a.isDigit && b.isDigit && monthPair m1 m2
        && (d1 = '0' || d1 = '1' || d1 = '2' || d1 = '3') && d2.isDigit then
      some (digitsToNat ['2', '0', a, b], digitsToNat [m1, m2], digitsToNat [d1, d2])
    else none
  | _ => none

/-- Model of `re.search` for the 8-digit pattern. -/
def search8 : List Char → Option (Nat × Nat × Nat)
  | [] => none
  | c :: rest =>
    match match8At (c :: rest) with
    | some r => some r
    | none => search8 rest

/-- One anchored attempt of `(20[0-9]{2})(0[1-9]|1[0-2])`. -/
def match6At : List Char → Option (Nat × Nat)
  | '2' :: '0' :: a :: b :: m1 :: m2 :: _ =>
    if a.isDigit && b.isDigit && monthPair m1 m2 then
      some (digitsToNat ['2', '0', a, b], digitsToNat [m1, m2])
    else none
  | _ => none

/-- Model of `re.search` for the 6-digit pattern. -/
def search6 : List Char → Option (Nat × Nat)
  | [] => none
  | c :: rest =>
    match match6At (c :: rest) with
    | some r => some r
    | none => search6 rest

/-- Source `parse_additional_filename_date(filename)`: the 8-digit `YYYYMMDD`
attempt (falling through on failed validation or `ValueError`), then the
6-digit `YYYYMM` attempt with day 1. -/
def parse_additional_filename_date (cy : Int) (filename : String) : Option DateTime :=
  let name := (pyLower filename).toList
  let first :=
    match search8 name with
    | none => none
    | some (y, m, d) =>
      if is_reasonable_year cy (y : Int) && (1 ≤ m && m ≤ 12) && (1 ≤ d && d ≤ 31) then
        mkDate? (y : Int) m d
      else none
  match first with
  | some dt => some dt
  | none =>
    match search6 name with
    | none => none
    | some (y, m) =>
      if is_reasonable_year cy (y : Int) && (1 ≤ m && m ≤ 12) then
        mkDate? (y : Int) m 1
      else none

/-- The fixed camera/app stems of `parse_all_digits_any_stem`, in source
order (each is stripped in turn from the current remainder when it still
starts with it). -/
def knownStems : List (List Char) :=
  ["img".toList, "img_".toList, "image".toList, "picture".toList, "photo".toList]

/-- The sequential stem-stripping loop. -/
def stripKnown (base : List Char) : List Char :=
  knownStems.foldl (fun b p => if p.isPrefixOf b then b.drop p.length else b) base

/-- Source function `parse_all_digits_*` (renamed `..._stem` here): lower-case, drop the
extension, strip known stems, and if the remainder is all digits try it as
a Unix epoch. -/
def parse_all_digits_any_stem (cy : Int) (filename : String) : Option DateTime :=
  let base_no_ext := (os_splitext (pyLower filename)).1.toList
  let stripped := stripKnown base_no_ext
  if !pyIsDigit stripped then none
  else parse_epoch cy (String.mk stripped)

/-- Source `parse_date_from_filename(filename)`: strict pattern, then the
additional patterns, then the all-digits epoch fallback. -/
def parse_date_from_filename (cy : Int) (filename : String) : Option DateTime :=
  match parse_strict_filename_date cy filename with
  | some dt => some dt
  | none =>
    match parse_additional_filename_date cy filename with
    | some dt => some dt
    | none => parse_all_digits_any_stem cy filename

/-! ## Directory-name extractor -/

/-- One `(\d{1,2})[-_](\d{1,2})[-_](\d{4})` attempt with fixed widths for
the first two groups. -/
def matchDirMD (mlen dlen : Nat) (cs : List Char) : Option (Nat × Nat × Nat) :=
  match takeDigitsAux mlen 0 cs with
  | none => none
  | some (m, cs1) =>
    match cs1 with
    | [] => none
    | c :: cs2 =>
      if isSepChar c then
        match takeDigitsAux dlen 0 cs2 with
        | none => none
        | some (d, cs3) =>
          match cs3 with
          | [] => none
          | c2 :: cs4 =>
            if isSepChar c2 then
              match takeDigitsAux 4 0 cs4 with
              | none => none
              | some (y, _) => some (m, d, y)
            else none
      else none

/-- One anchored attempt of the directory pattern, in the regex engine's
greedy backtracking order (two digits before one, month before day). -/
def matchDirAt (cs : List Char) : Option (Nat × Nat × Nat) :=
  match matchDirMD 2 2 cs with
  | some r => some r
  | none =>
    match matchDirMD 2 1 cs with
    | some r => some r
    | none =>
      match matchDirMD 1 2 cs with
      | some r => some r
      | none => matchDirMD 1 1 cs

/-- Model of `re.search` for the directory pattern. -/
def searchDir : List Char → Option (Nat × Nat × Nat)
  | [] => none
  | c :: rest =>
    match matchDirAt (c :: rest) with
    | some r => some r
    | none => searchDir rest

/-- The `for part in reversed(parts)` loop of `parse_date_from_directory`:
the groups are read month-day-year; a failed validation or a `ValueError`
moves on to the next (shallower) path segment. -/
def goDirParts (cy : Int) : List (List Char) → Option DateTime
  | [] => none
  | part :: rest =>
    match searchDir part with
    | none => goDirParts cy rest
    | some (m, d, y) =>
      if is_reasonable_year cy (y : Int) && (1 ≤ m && m ≤ 12) && (1 ≤ d && d ≤ 31) then
        match mkDate? (y : Int) m d with
        | some dt => some dt
        | none => goDirParts cy rest
      else goDirParts cy rest

/-- Source `parse_date_from_directory(dir_path)`: split on `os.sep` and scan the
segments deepest-first. -/
def parse_date_from_directory (cy : Int) (dir_path : String) : Option DateTime :=
  goDirParts cy (splitOnSlash dir_path.toList).reverse

/-! ## Date Resolver and Classifier/Router -/

/-- Everything the per-file pipeline reads from the outside world:
the injected current year `cy`, the local-UTC offset `off` used by
`datetime.fromtimestamp`, the EXIF read of the file, the directory
listing for the sidecar search, the content of any JSON path, and
`os.path.getmtime` (which the source calls with no `try`, so its
exception is carried as `Except.error`). -/
structure Env where
  cy : Int
  off : Int
  exif : ExifRead
  dirlist : DirListing
  jsonContent : String → JsonRead
  mtime : Except Unit Int

/-- Source `get_creation_datetime(file_path)`: EXIF, then sidecar JSON, then
filename, then directory name, then the file modification time.  The
final fallback converts `os.path.getmtime` with local-time
`datetime.fromtimestamp`; neither call sits in a `try`, so their
exceptions escape (`Except.error`). -/
def get_creation_datetime (env : Env) (file_path : String) : Except Unit DateTime :=
  match get_exif_datetime env.cy env.exif with
  | some dt => Except.ok dt
  | none =>
    match (match find_companion_json env.dirlist file_path with
           | some json_path => parse_date_from_json env.cy env.off (env.jsonContent json_path)
           | none => none) with
    | some dt => Except.ok dt
    | none =>
      match parse_date_from_filename env.cy (os_basename file_path) with
      | some dt => Except.ok dt
      | none =>
        match parse_date_from_directory env.cy (os_dirname file_path) with
        | some dt => Except.ok dt
        | none =>
          match env.mtime with
          | Except.error e => Except.error e
          | Except.ok t => py_fromtimestamp env.off t

/-- The per-extractor views of the chain (the exact calls the resolver
makes, in its order). -/
def exifEvidence (env : Env) : Option DateTime :=
  get_exif_datetime env.cy env.exif

/-- Sidecar step as the resolver performs it: locate, then parse. -/
def sidecarEvidence (env : Env) (file_path : String) : Option DateTime :=
  match find_companion_json env.dirlist file_path with
  | some json_path => parse_date_from_json env.cy env.off (env.jsonContent json_path)
  | none => none

/-- Filename step as the resolver performs it. -/
def filenameEvidence (env : Env) (file_path : String) : Option DateTime :=
  parse_date_from_filename env.cy (os_basename file_path)

/-- Directory step as the resolver performs it. -/
def dirEvidence (env : Env) (file_path : String) : Option DateTime :=
  parse_date_from_directory env.cy (os_dirname file_path)

/-- Terminal mtime step as the resolver performs it (may raise). -/
def mtimeEvidence (env : Env) : Except Unit DateTime :=
  match env.mtime with
  | Except.error e => Except.error e
  | Except.ok t => py_fromtimestamp env.off t

/-- First present result of an ordered list of evidence options. -/
def firstSome : List (Option DateTime) → Option DateTime
  | [] => none
  | some d :: _ => some d
  | none :: rest => firstSome rest

/-- The routing block of `main` for one walked file `(root, filename)`:
a filename containing `"snapchat"` (case-insensitive) goes straight to
`"Snapchat"` with no date resolution; otherwise the resolved year is
checked against the oracle and mapped to `"Unknown"` or `str(year)`.
A resolver exception escapes (`main` has no handler). -/
def classify (env : Env) (root filename : String) : Except Unit String :=
  let source_path := os_join root filename
  let filename_lower := pyLower filename
  if strContains filename_lower "snapchat" then Except.ok "Snapchat"
  else
    match get_creation_datetime env source_path with
    | Except.error e => Except.error e
    | Except.ok dt =>
      if !is_reasonable_year env.cy dt.year then Except.ok "Unknown"
      else Except.ok (toString dt.year)

/-! ## Format Normalizer / placement (`copy_or_convert_file`) -/

/-- The destination filesystem as placement sees it: an association list
from path to file content (most recent write first). -/
structure FSState where
  files : List (String × String)
deriving DecidableEq

/-- Model of `os.path.exists` on the modelled filesystem. -/
def FSState.pathExists (fs : FSState) (p : String) : Bool :=
  fs.files.any (fun e => e.1 = p)

/-- Content lookup (what `Image.open`/`shutil.copy2` read from a path). -/
def FSState.readFile (fs : FSState) (p : String) : Option String :=
  match fs.files.find? (fun e => e.1 = p) with
  | some e => some e.2
  | none => none

/-- A write to the modelled filesystem. -/
def FSState.write (fs : FSState) (p c : String) : FSState :=
  ⟨(p, c) :: fs.files⟩

/-- The placement collaborators: the HEIC decode/re-encode (which may fail
per file — `convert_heic_to_jpg` sits in a `try`), and whether the plain
`shutil.copy2` raises (disk full, permissions — it sits in no `try`). -/
structure PlaceEnv where
  convert : String → Except Unit String
  copyRaises : Bool

/-- Source `copy_or_convert_file(source_path, dest_path)`: for `.heic`/`.heif`
sources the destination extension is rewritten to `.jpg`, an existing
destination is skipped silently, and a conversion failure (including an
unreadable source) is caught and the file skipped; for all other sources
an existing destination is skipped silently and `shutil.copy2` runs with
no handler, so its failure escapes as `Except.error`. -/
def copy_or_convert_file (penv : PlaceEnv) (fs : FSState) (source_path dest_path : String) :
    Except Unit FSState :=
  let ext := pyLower (os_splitext source_path).2
  if ext = ".heic" || ext = ".heif" then
    let base_name := (os_splitext (os_basename dest_path)).1
    let new_dest_path := os_join (os_dirname dest_path) (base_name ++ ".jpg")
    if fs.pathExists new_dest_path then Except.ok fs
    else
      match fs.readFile source_path with
      | none => Except.ok fs
      | some content =>
        match penv.convert content with
        | Except.error _ => Except.ok fs
        | Except.ok jpg => Except.ok (fs.write new_dest_path jpg)
  else
    if fs.pathExists dest_path then Except.ok fs
    else
      match fs.readFile source_path with
      | none => Except.error ()
      | some content =>
        if penv.copyRaises then Except.error ()
        else Except.ok (fs.write dest_path content)

/-- The destination path placement actually targets: `dest_path` with its
extension rewritten to `.jpg` exactly when the source is `.heic`/`.heif`. -/
def finalDest (source_path dest_path : String) : String :=
  let ext := pyLower (os_splitext source_path).2
  if ext = ".heic" || ext = ".heif" then
    os_join (os_dirname dest_path) ((os_splitext (os_basename dest_path)).1 ++ ".jpg")
  else dest_path

/-! ## Concrete environments used to instantiate the theorems -/

/-- A file carrying a valid 2019 EXIF capture time and nothing else useful. -/
def envExif2019 : Env :=
  { cy := 2025, off := 0
    exif := ExifRead.ok [("DateTimeOriginal", "2019:05:05 10:20:30")]
    dirlist := ⟨[], false, fun _ => false⟩
    jsonContent := fun _ => JsonRead.raises
    mtime := Except.ok 0 }

/-- The spec's sidecar example (`IMG_1001.jpg` + `IMG_1001.jpg.json` with
`photoTakenTime.timestamp = "1609459200"`), no EXIF, on a machine whose
local timezone is UTC. -/
def envSidecarUTC : Env :=
  { cy := 2025, off := 0
    exif := ExifRead.ok []
    dirlist := ⟨[], false, fun p => p = "d/IMG_1001.jpg.json"⟩
    jsonContent := fun p =>
      if p = "d/IMG_1001.jpg.json" then
        JsonRead.ok ⟨some (some "1609459200"), none, none⟩
      else JsonRead.raises
    mtime := Except.ok 0 }

/-- The same sidecar example on a machine one hour west of UTC. -/
def envSidecarWest : Env :=
  { envSidecarUTC with off := -3600 }

/-- A file with no usable evidence at all and an untouched 1975
modification time (`157766400` = 1975-01-01T00:00:00Z). -/
def envMtime1975 : Env :=
  { cy := 2025, off := 0
    exif := ExifRead.ok []
    dirlist := ⟨[], false, fun _ => false⟩
    jsonContent := fun _ => JsonRead.raises
    mtime := Except.ok 157766400 }

/-- Placement collaborators whose HEIC conversion always fails. -/
def penvConvertFail : PlaceEnv := ⟨fun _ => Except.error (), false⟩

/-- Placement collaborators whose byte-copy fails (e.g. disk full). -/
def penvCopyFail : PlaceEnv := ⟨fun c => Except.ok c, true⟩

/-- Well-behaved placement collaborators. -/
def penvOk : PlaceEnv := ⟨fun c => Except.ok c, false⟩

/-- A source tree holding one ordinary image. -/
def fsPng : FSState := ⟨[("in/a.png", "X")]⟩

/-- State of `fsPng` after one successful copy to `out/a.png`. -/
def fsPngCopied : FSState := ⟨[("out/a.png", "X"), ("in/a.png", "X")]⟩

/-- A source tree holding one HEIC image. -/
def fsHeic : FSState := ⟨[("in/a.heic", "X")]⟩

/-- Number of decimal digits of a natural number (used to reason about
`str(year)` bucket names). -/
def digitCount (n : Nat) : Nat :=
  if n < 10 then 1 else 1 + digitCount (n / 10)
decreasing_by omega

/-! ## Helper lemmas -/

theorem digitCount_lt10 (n : Nat) (h : n < 10) : digitCount n = 1 := by
  rw [digitCount]
  simp [h]

theorem digitCount_ge10 (n : Nat) (h : ¬ n < 10) : digitCount n = 1 + digitCount (n / 10) := by
  rw [digitCount]
  simp [h]

theorem toDigitsCore_len (fuel : Nat) :
    ∀ (n : Nat) (ds : List Char), n < fuel →
      (Nat.toDigitsCore 10 fuel n ds).length = digitCount n + ds.length := by
  induction fuel with
  | zero => exact fun n ds h => absurd h (Nat.not_lt_zero n)
  | succ f ih =>
    intro n ds h
    rw [Nat.toDigitsCore]
    by_cases h10 : n / 10 = 0
    · rw [if_pos h10]
      rw [digitCount_lt10 n (by omega)]
      simp
      omega
    · rw [if_neg h10]
      rw [ih (n / 10) _ (by omega)]
      rw [digitCount_ge10 n (by omega)]
      simp
      omega

theorem natRepr_len_four (n : Nat) (h1 : 1000 ≤ n) (h2 : n < 10000) :
    (Nat.repr n).length = 4 := by
  have h := toDigitsCore_len (n + 1) n [] (by omega)
  have e1 : digitCount n = 1 + digitCount (n / 10) := digitCount_ge10 n (by omega)
  have e2 : digitCount (n / 10) = 1 + digitCount (n / 10 / 10) := digitCount_ge10 _ (by omega)
  have e3 : digitCount (n / 10 / 10) = 1 + digitCount (n / 10 / 10 / 10) :=
    digitCount_ge10 _ (by omega)
  have e4 : digitCount (n / 10 / 10 / 10) = 1 := digitCount_lt10 _ (by omega)
  rw [e1, e2, e3, e4] at h
  simpa [Nat.repr, Nat.toDigits, List.asString, String.length] using h

theorem toString_year_four (y : Int) (h1 : 1000 ≤ y) (h2 : y ≤ 9999) :
    (toString y).length = 4 := by
  obtain ⟨n, rfl⟩ := Int.eq_ofNat_of_zero_le (by omega : (0 : Int) ≤ y)
  have e : toString ((n : Nat) : Int) = Nat.repr n := rfl
  rw [e]
  exact natRepr_len_four n (by omega) (by omega)

/-! ## Claim theorems -/

/-- Claim C3: for all integer years `y` and every injected current year,
`is_reasonable_year` returns true exactly when `2000 <= y <= current_year`. -/
theorem c3_year_oracle_iff (cy y : Int) :
    is_reasonable_year cy y = true ↔ (2000 ≤ y ∧ y ≤ cy) := by
  simp [is_reasonable_year]

/-- Claim C4: a filename containing `"snapchat"` (case-insensitive) is
routed to the `Snapchat` bucket for every environment whatsoever — in
particular no date-resolution input (EXIF, sidecar, filename digits,
directory, mtime) can influence the outcome, which is the observable
content of "no date resolution is performed at all". -/
theorem c4_snapchat_short_circuit (env : Env) (root filename : String)
    (h : strContains (pyLower filename) "snapchat" = true) :
    classify env root filename = Except.ok "Snapchat" := by
  simp [classify, h]

/-- Witness for C4: `random-snapchat-export.mp4` goes to `Snapchat` even
though the environment carries valid 2019 EXIF. -/
theorem c4_witness :
    classify envExif2019 "Takeout/Google Photos" "random-snapchat-export.mp4" =
        Except.ok "Snapchat" ∧
      exifEvidence envExif2019 = some ⟨2019, 5, 5, 10, 20, 30⟩ :=
  ⟨c4_snapchat_short_circuit envExif2019 "Takeout/Google Photos"
      "random-snapchat-export.mp4" (by decide), rfl⟩

theorem findExifLoop_append_of_no_tag (cy : Int) (pre l : List (String × String))
    (hpre : pre.all (fun p => !isDateTag p.1) = true) :
    findExifLoop cy (pre ++ l) = findExifLoop cy l := by
  induction pre with
  | nil => rfl
  | cons p ps ih =>
    simp only [List.all_cons, Bool.and_eq_true, Bool.not_eq_true'] at hpre
    simp only [List.cons_append, findExifLoop, hpre.1, Bool.false_eq_true, if_false]
    exact ih hpre.2

/-- Claim C6: in the EXIF extractor, the first tag in iteration order whose
name matches decides everything — if its value is malformed or its year is
out of window, the result is `None`, and no later tag (here: an arbitrary
`rest` vs. `rest2` continuation) is ever examined. -/
theorem c6_exif_tag_short_circuit (cy : Int) (pre rest rest2 : List (String × String))
    (name value : String)
    (hpre : pre.all (fun p => !isDateTag p.1) = true)
    (hname : isDateTag name = true)
    (hbad : ∀ dt, parseExifDatetime value = some dt →
      is_reasonable_year cy dt.year = false) :
    get_exif_datetime cy (ExifRead.ok (pre ++ (name, value) :: rest)) = none ∧
      get_exif_datetime cy (ExifRead.ok (pre ++ (name, value) :: rest)) =
        get_exif_datetime cy (ExifRead.ok (pre ++ (name, value) :: rest2)) := by
  have key : ∀ r : List (String × String),
      get_exif_datetime cy (ExifRead.ok (pre ++ (name, value) :: r)) = none := by
    intro r
    have hg : get_exif_datetime cy (ExifRead.ok (pre ++ (name, value) :: r)) =
        findExifLoop cy (pre ++ (name, value) :: r) := by
      cases pre <;> rfl
    rw [hg, findExifLoop_append_of_no_tag cy pre _ hpre]
    simp only [findExifLoop, hname, if_true]
    cases hp : parseExifDatetime value with
    | none => rfl
    | some dt => simp [hbad dt hp]
  exact ⟨key rest, (key rest).trans (key rest2).symm⟩

/-- Witness for C6: a malformed `DateTime` value is hit first, so the
valid `DateTimeOriginal` tag after it is ignored and the extractor
returns `None`. -/
theorem c6_witness :
    get_exif_datetime 2025 (ExifRead.ok
      [("Make", "Apple"), ("DateTime", "garbage"),
       ("DateTimeOriginal", "2019:05:05 10:20:30")]) = none :=
  (c6_exif_tag_short_circuit 2025 [("Make", "Apple")]
    [("DateTimeOriginal", "2019:05:05 10:20:30")] [] "DateTime" "garbage"
    (by decide) (by decide)
    (fun dt h => Option.noConfusion
      ((by decide : parseExifDatetime "garbage" = none) ▸ h))).1

/-- Claim C1: the resolver consults the five extractors in the exact order
EXIF, sidecar JSON, filename, directory, mtime, and returns the first
present result (the `firstSome` equation); consequently a valid EXIF date
wins over a valid, different filename date; and whenever the unconditional
terminal mtime step yields a date, resolution yields a concrete date —
never an absence. -/
theorem c1_resolver_priority (env : Env) (path : String) :
    (get_creation_datetime env path =
      match firstSome [exifEvidence env, sidecarEvidence env path,
          filenameEvidence env path, dirEvidence env path] with
      | some dt => Except.ok dt
      | none => mtimeEvidence env) ∧
    (∀ d1 d3, exifEvidence env = some d1 → filenameEvidence env path = some d3 →
      get_creation_datetime env path = Except.ok d1) ∧
    (∀ dt, mtimeEvidence env = Except.ok dt →
      ∃ d, get_creation_datetime env path = Except.ok d) := by
  have hdef : get_creation_datetime env path =
      (match exifEvidence env with
       | some dt => Except.ok dt
       | none =>
         match sidecarEvidence env path with
         | some dt => Except.ok dt
         | none =>
           match filenameEvidence env path with
           | some dt => Except.ok dt
           | none =>
             match dirEvidence env path with
             | some dt => Except.ok dt
             | none => mtimeEvidence env) := rfl
  refine ⟨?_, ?_, ?_⟩
  · rcases e1 : exifEvidence env with _ | d1 <;>
      rcases e2 : sidecarEvidence env path with _ | d2 <;>
        rcases e3 : filenameEvidence env path with _ | d3 <;>
          rcases e4 : dirEvidence env path with _ | d4 <;>
            simp [hdef, e1, e2, e3, e4, firstSome]
  · intro d1 d3 h1 h3
    simp [hdef, h1]
  · intro dt hmt
    rcases e1 : exifEvidence env with _ | d1 <;>
      rcases e2 : sidecarEvidence env path with _ | d2 <;>
        rcases e3 : filenameEvidence env path with _ | d3 <;>
          rcases e4 : dirEvidence env path with _ | d4 <;>
            first
            | (simp [hdef, e1, e2, e3, e4]; done)
            | exact ⟨dt, by simp [hdef, e1, e2, e3, e4, hmt]⟩

/-- Witness for C1: a file with valid 2019 EXIF and a valid, different
2020 filename date resolves to the EXIF value. -/
theorem c1_witness :
    get_creation_datetime envExif2019 "Takeout/Google Photos/2020-01-02.jpg" =
      Except.ok ⟨2019, 5, 5, 10, 20, 30⟩ :=
  (c1_resolver_priority envExif2019 "Takeout/Google Photos/2020-01-02.jpg").2.1
    ⟨2019, 5, 5, 10, 20, 30⟩ ⟨2020, 1, 2, 0, 0, 0⟩ rfl rfl

/-- Claim C5: a non-keyword file is routed by the year of its resolved
date: an oracle-rejected year goes to the sentinel `Unknown` bucket, an
accepted one to the bucket named `str(year)` — which is a four-digit
string whenever the current year itself has four digits. -/
theorem c5_year_routing (env : Env) (root filename : String) (dt : DateTime)
    (hk : strContains (pyLower filename) "snapchat" = false)
    (hres : get_creation_datetime env (os_join root filename) = Except.ok dt) :
    (classify env root filename =
      Except.ok (if is_reasonable_year env.cy dt.year then toString dt.year
                 else "Unknown")) ∧
    (is_reasonable_year env.cy dt.year = false →
      classify env root filename = Except.ok "Unknown") ∧
    (is_reasonable_year env.cy dt.year = true →
      classify env root filename = Except.ok (toString dt.year) ∧
        (dt.year ≤ 9999 → (toString dt.year).length = 4)) := by
  have hcls : classify env root filename =
      Except.ok (if is_reasonable_year env.cy dt.year then toString dt.year
                 else "Unknown") := by
    simp only [classify, hk, Bool.false_eq_true, if_false, hres]
    cases h : is_reasonable_year env.cy dt.year <;> simp [h]
  refine ⟨hcls, fun h => ?_, fun h => ⟨?_, fun h9 => ?_⟩⟩
  · rw [hcls, h]
    simp
  · rw [hcls, h]
    simp
  · have hy : 2000 ≤ dt.year := by
      have h2 := h
      simp only [is_reasonable_year, Bool.and_eq_true, decide_eq_true_eq] at h2
      exact h2.1
    exact toString_year_four dt.year (by omega) h9

/-- Witness for C5: with 2019 EXIF evidence and an in-window oracle the
file lands in the `"2019"` bucket, a 4-character name. -/
theorem c5_witness :
    classify envExif2019 "Takeout/Google Photos" "IMG_0001.jpg" = Except.ok "2019" ∧
      ("2019" : String).length = 4 := by
  have h := (c5_year_routing envExif2019 "Takeout/Google Photos" "IMG_0001.jpg"
    ⟨2019, 5, 5, 10, 20, 30⟩ (by decide) rfl).2.2 (by decide)
  exact ⟨h.1, h.2 (by decide)⟩

/-- Counterexample to C7: the source converts the sidecar epoch with
`datetime.fromtimestamp`, which uses *local* time, not UTC.  On a machine
one hour west of UTC the spec's own example (`IMG_1001.jpg`, sidecar
timestamp `"1609459200"`) resolves to 2020-12-31, not to the claimed
2021-01-01 — so the "interpreting the epoch timestamp in UTC" claim is
false on the code. -/
theorem c7_counterexample :
    get_creation_datetime envSidecarWest "d/IMG_1001.jpg" =
        Except.ok ⟨2020, 12, 31, 23, 0, 0⟩ ∧
      ¬(((2020 : Int), (12 : Nat), (31 : Nat)) = ((2021 : Int), (1 : Nat), (1 : Nat))) :=
  ⟨rfl, by decide⟩

/-- Amended C7: for `IMG_1001.jpg` with sidecar `IMG_1001.jpg.json`
holding `photoTakenTime.timestamp = "1609459200"`, resolution interprets
the epoch in *local* time; on a machine whose local timezone is UTC it
yields 2021-01-01T00:00:00 (agreeing with the spec's UTC reading there). -/
theorem c7_sidecar_example_local_time :
    get_creation_datetime envSidecarUTC "d/IMG_1001.jpg" =
      Except.ok ⟨2021, 1, 1, 0, 0, 0⟩ :=
  rfl

theorem mkDate?_year (y : Int) (m d : Nat) (dt : DateTime)
    (h : mkDate? y m d = some dt) : dt.year = y := by
  unfold mkDate? at h
  split at h
  · cases h
    rfl
  · simp at h

theorem findExifLoop_valid (cy : Int) :
    ∀ (l : List (String × String)) (dt : DateTime),
      findExifLoop cy l = some dt → is_reasonable_year cy dt.year = true := by
  intro l
  induction l with
  | nil =>
    intro dt h
    simp [findExifLoop] at h
  | cons p ps ih =>
    intro dt h
    obtain ⟨nm, v⟩ := p
    simp only [findExifLoop] at h
    split at h
    · split at h
      · split at h
        · cases h
          assumption
        · simp at h
      · simp at h
    · exact ih dt h

theorem get_exif_datetime_valid (cy : Int) (exif : ExifRead) (dt : DateTime)
    (h : get_exif_datetime cy exif = some dt) :
    is_reasonable_year cy dt.year = true := by
  unfold get_exif_datetime at h
  split at h
  · simp at h
  · simp at h
  · exact findExifLoop_valid cy _ dt h

theorem goKeys_valid (cy off : Int) :
    ∀ (l : List (Option (Option String))) (dt : DateTime),
      goKeys cy off l = Except.ok (some dt) → is_reasonable_year cy dt.year = true := by
  intro l
  induction l with
  | nil =>
    intro dt h
    simp [goKeys] at h
  | cons e es ih =>
    intro dt h
    simp only [goKeys] at h
    split at h
    · exact ih dt h
    · exact ih dt h
    · split at h
      · simp at h
      · split at h
        · simp at h
        · split at h
          · cases h
            assumption
          · exact ih dt h

theorem parse_date_from_json_valid (cy off : Int) (j : JsonRead) (dt : DateTime)
    (h : parse_date_from_json cy off j = some dt) :
    is_reasonable_year cy dt.year = true := by
  unfold parse_date_from_json at h
  split at h
  · simp at h
  · split at h
    · simp at h
    · rename_i r hr
      cases h
      exact goKeys_valid cy off _ dt hr

theorem parse_strict_filename_date_valid (cy : Int) (fn : String) (dt : DateTime)
    (h : parse_strict_filename_date cy fn = some dt) :
    is_reasonable_year cy dt.year = true := by
  unfold parse_strict_filename_date at h
  split at h
  · simp at h
  · split at h
    · rename_i y m d _ hcond
      have hy := mkDate?_year _ _ _ _ h
      rw [hy]
      simp only [Bool.and_eq_true] at hcond
      exact hcond.1.1
    · simp at h

theorem guardedEpoch_valid (cy : Int) (o : Except Unit DateTime) (dt : DateTime)
    (h : (match o with
          | Except.error _ => none
          | Except.ok d => if is_reasonable_year cy d.year then some d else none) =
        some dt) :
    is_reasonable_year cy dt.year = true := by
  split at h
  · simp at h
  · split at h
    · cases h
      assumption
    · simp at h

theorem parse_additional_filename_date_valid (cy : Int) (fn : String) (dt : DateTime)
    (h : parse_additional_filename_date cy fn = some dt) :
    is_reasonable_year cy dt.year = true := by
  simp only [parse_additional_filename_date] at h
  split at h
  · rename_i dt2 hfirst
    cases h
    split at hfirst
    · simp at hfirst
    · split at hfirst
      · rename_i y m d _ hcond
        have hy := mkDate?_year _ _ _ _ hfirst
        rw [hy]
        simp only [Bool.and_eq_true] at hcond
        exact hcond.1.1
      · simp at hfirst
  · split at h
    · simp at h
    · split at h
      · rename_i y m _ hcond
        have hy := mkDate?_year _ _ _ _ h
        rw [hy]
        simp only [Bool.and_eq_true] at hcond
        exact hcond.1
      · simp at h

theorem parse_epoch_valid (cy : Int) (s : String) (dt : DateTime)
    (h : parse_epoch cy s = some dt) :
    is_reasonable_year cy dt.year = true := by
  simp only [parse_epoch] at h
  split at h
  · simp at h
  · split at h
    · exact guardedEpoch_valid cy _ dt h
    · split at h
      · exact guardedEpoch_valid cy _ dt h
      · simp at h

theorem parse_all_digits_any_stem_valid (cy : Int) (fn : String) (dt : DateTime)
    (h : parse_all_digits_any_stem cy fn = some dt) :
    is_reasonable_year cy dt.year = true := by
  simp only [parse_all_digits_any_stem] at h
  split at h
  · simp at h
  · exact parse_epoch_valid cy _ dt h

theorem parse_date_from_filename_valid (cy : Int) (fn : String) (dt : DateTime)
    (h : parse_date_from_filename cy fn = some dt) :
    is_reasonable_year cy dt.year = true := by
  unfold parse_date_from_filename at h
  split at h
  · cases h
    exact parse_strict_filename_date_valid cy fn _ (by assumption)
  · split at h
    · cases h
      exact parse_additional_filename_date_valid cy fn _ (by assumption)
    · exact parse_all_digits_any_stem_valid cy fn dt h

theorem goDirParts_valid (cy : Int) :
    ∀ (parts : List (List Char)) (dt : DateTime),
      goDirParts cy parts = some dt → is_reasonable_year cy dt.year = true := by
  intro parts
  induction parts with
  | nil =>
    intro dt h
    simp [goDirParts] at h
  | cons part rest ih =>
    intro dt h
    simp only [goDirParts] at h
    split at h
    · exact ih dt h
    · split at h
      · split at h
        · rename_i m d y hcond _ dt2 hmk
          cases h
          have hy := mkDate?_year _ _ _ _ hmk
          rw [hy]
          simp only [Bool.and_eq_true] at hcond
          exact hcond.1.1
        · exact ih dt h
      · exact ih dt h

theorem parse_date_from_directory_valid (cy : Int) (dp : String) (dt : DateTime)
    (h : parse_date_from_directory cy dp = some dt) :
    is_reasonable_year cy dt.year = true :=
  goDirParts_valid cy _ dt h

/-- Counterexample to C9: with no EXIF, sidecar, filename or directory
evidence and an untouched 1975 modification time, the resolver returns a
`DateEvidence` whose year the Year Validity Oracle rejects — so the claim
that no returned date ever fails the oracle is false (the mtime fallback
performs no check; `main` compensates downstream by routing to
`Unknown`). -/
theorem c9_counterexample :
    get_creation_datetime envMtime1975 "Takeout/Google Photos/beach.jpg" =
        Except.ok ⟨1975, 1, 1, 0, 0, 0⟩ ∧
      is_reasonable_year envMtime1975.cy 1975 = false :=
  ⟨rfl, rfl⟩

/-- Amended C9: every date returned by the EXIF, sidecar, filename and
directory extractors has passed the Year Validity Oracle at construction
time; only the terminal filesystem-timestamp fallback is exempt (see the
counterexample) and its out-of-window years are handled by routing. -/
theorem c9_extractor_years_validated (cy off : Int) (exif : ExifRead) (j : JsonRead)
    (fn dp : String) (dt : DateTime) :
    (get_exif_datetime cy exif = some dt → is_reasonable_year cy dt.year = true) ∧
    (parse_date_from_json cy off j = some dt → is_reasonable_year cy dt.year = true) ∧
    (parse_date_from_filename cy fn = some dt → is_reasonable_year cy dt.year = true) ∧
    (parse_date_from_directory cy dp = some dt → is_reasonable_year cy dt.year = true) :=
  ⟨get_exif_datetime_valid cy exif dt,
   parse_date_from_json_valid cy off j dt,
   parse_date_from_filename_valid cy fn dt,
   parse_date_from_directory_valid cy dp dt⟩

/-- Witness for the amended C9: the 2019 EXIF date indeed carries an
oracle-approved year. -/
theorem c9_witness : is_reasonable_year 2025 (2019 : Int) = true :=
  (c9_extractor_years_validated 2025 0
      (ExifRead.ok [("DateTimeOriginal", "2019:05:05 10:20:30")]) JsonRead.raises
      "x" "y" ⟨2019, 5, 5, 10, 20, 30⟩).1 (by decide)

/-- Claim C10: if `photoTakenTime` is present but its timestamp string is
not a well-formed integer, `int(...)` raises and the function-level
handler returns `None` for the whole sidecar, regardless of what the
lower-priority keys hold; by contrast an out-of-window year on
`photoTakenTime` merely moves on to the remaining keys (the result is the
same as if the key were absent). -/
theorem c10_sidecar_malformed_vs_window (cy off : Int) (ts : String)
    (c v : Option (Option String)) :
    (pyInt? ts = none →
      parse_date_from_json cy off (JsonRead.ok ⟨some (some ts), c, v⟩) = none) ∧
    (∀ n dt, pyInt? ts = some n → py_fromtimestamp off n = Except.ok dt →
      is_reasonable_year cy dt.year = false →
      parse_date_from_json cy off (JsonRead.ok ⟨some (some ts), c, v⟩) =
        parse_date_from_json cy off (JsonRead.ok ⟨none, c, v⟩)) := by
  constructor
  · intro hbad
    simp [parse_date_from_json, goKeys, hbad]
  · intro n dt hn hts hr
    simp [parse_date_from_json, goKeys, hn, hts, hr]

/-- Witness for C10: a malformed `photoTakenTime` timestamp makes the
whole sidecar yield `None` even though `creationTime` holds a perfectly
valid timestamp. -/
theorem c10_witness :
    parse_date_from_json 2025 0
      (JsonRead.ok ⟨some (some "abc"), some (some "1609459200"), none⟩) = none :=
  (c10_sidecar_malformed_vs_window 2025 0 "abc"
    (some (some "1609459200")) none).1 (by decide)

theorem pathExists_write_self (fs : FSState) (p c : String) :
    (fs.write p c).pathExists p = true := by
  simp [FSState.write, FSState.pathExists]

theorem copy_skip_existing (penv : PlaceEnv) (fs : FSState) (s d : String)
    (hex : fs.pathExists (finalDest s d) = true) :
    copy_or_convert_file penv fs s d = Except.ok fs := by
  cases hheic :
      (pyLower (os_splitext s).2 = ".heic" || pyLower (os_splitext s).2 = ".heif") with
  | true =>
    simp [finalDest, hheic] at hex
    simp [copy_or_convert_file, hheic, hex]
  | false =>
    simp [finalDest, hheic] at hex
    simp [copy_or_convert_file, hheic, hex]

theorem copy_result_cases (penv : PlaceEnv) (fs : FSState) (s d : String) (fs' : FSState)
    (hrun : copy_or_convert_file penv fs s d = Except.ok fs') :
    fs' = fs ∨ fs'.pathExists (finalDest s d) = true := by
  cases hheic :
      (pyLower (os_splitext s).2 = ".heic" || pyLower (os_splitext s).2 = ".heif") with
  | true =>
    simp only [copy_or_convert_file, hheic] at hrun
    simp only [Bool.true_eq_false, if_true, eq_self_iff_true] at hrun
    split at hrun
    · cases hrun
      exact Or.inl rfl
    · split at hrun
      · cases hrun
        exact Or.inl rfl
      · split at hrun
        · cases hrun
          exact Or.inl rfl
        · cases hrun
          refine Or.inr ?_
          simp [finalDest, hheic, pathExists_write_self]
  | false =>
    simp only [copy_or_convert_file, hheic] at hrun
    simp only [Bool.false_eq_true, if_false] at hrun
    split at hrun
    · cases hrun
      exact Or.inl rfl
    · split at hrun
      · simp at hrun
      · split at hrun
        · simp at hrun
        · cases hrun
          refine Or.inr ?_
          simp [finalDest, hheic, pathExists_write_self]

/-- Claim C8: placement is idempotent by destination path: when the
(extension-rewritten) destination exists, nothing is written and no error
is reported; and a second run on the same pair leaves the filesystem of a
successful first run exactly as it is. -/
theorem c8_idempotent_placement (penv : PlaceEnv) (fs : FSState) (s d : String) :
    (fs.pathExists (finalDest s d) = true →
      copy_or_convert_file penv fs s d = Except.ok fs) ∧
    (∀ fs', copy_or_convert_file penv fs s d = Except.ok fs' →
      copy_or_convert_file penv fs' s d = Except.ok fs') := by
  refine ⟨copy_skip_existing penv fs s d, fun fs' hrun => ?_⟩
  rcases copy_result_cases penv fs s d fs' hrun with rfl | hex
  · exact hrun
  · exact copy_skip_existing penv fs' s d hex

/-- Witness for C8: after one successful copy of `in/a.png` to
`out/a.png`, a second run of placement is a silent no-op on the populated
filesystem. -/
theorem c8_witness :
    copy_or_convert_file penvOk fsPngCopied "in/a.png" "out/a.png" =
      Except.ok fsPngCopied :=
  (c8_idempotent_placement penvOk fsPng "in/a.png" "out/a.png").2 fsPngCopied rfl

/-- Counterexample to C2: the plain byte-copy branch of
`copy_or_convert_file` runs `shutil.copy2` with no `try`, so a copy
failure (here: disk full / permissions on a fresh `out/a.png`) escapes
placement as an exception (`Except.error`) and aborts the run — the claim
that no per-file placement error can escape is false on the code. -/
theorem c2_counterexample :
    copy_or_convert_file penvCopyFail fsPng "in/a.png" "out/a.png" =
      Except.error () :=
  rfl

/-- Amended C2: failures inside the EXIF and sidecar extractors become
absence, and a HEIC/HEIF conversion failure is contained (the run
continues with the filesystem unchanged observable as `Except.ok`); but a
failure of the plain byte-copy (`shutil.copy2`) escapes placement, and a
failure of the `os.path.getmtime` terminal read escapes the resolver when
every other extractor is absent.  Only these two per-file sites (plus the
initial configuration check, outside this model) can abort the run. -/
theorem c2_error_containment_amended (cy off : Int) (env : Env) (penv : PlaceEnv)
    (fs : FSState) (s d path : String) :
    (get_exif_datetime cy ExifRead.raises = none) ∧
    (parse_date_from_json cy off JsonRead.raises = none) ∧
    ((pyLower (os_splitext s).2 = ".heic" || pyLower (os_splitext s).2 = ".heif") = true →
      ∃ fs', copy_or_convert_file penv fs s d = Except.ok fs') ∧
    ((pyLower (os_splitext s).2 = ".heic" || pyLower (os_splitext s).2 = ".heif") = false →
      fs.pathExists d = false → (∃ c, fs.readFile s = some c) → penv.copyRaises = true →
      copy_or_convert_file penv fs s d = Except.error ()) ∧
    (exifEvidence env = none → sidecarEvidence env path = none →
      filenameEvidence env path = none → dirEvidence env path = none →
      env.mtime = Except.error () → get_creation_datetime env path = Except.error ()) := by
  refine ⟨rfl, rfl, ?_, ?_, ?_⟩
  · intro hheic
    simp only [copy_or_convert_file, hheic]
    simp only [Bool.true_eq_false, if_true, eq_self_iff_true]
    split
    · exact ⟨fs, rfl⟩
    · split
      · exact ⟨fs, rfl⟩
      · split
        · exact ⟨fs, rfl⟩
        · exact ⟨_, rfl⟩
  · intro hheic hpe hrd hcr
    obtain ⟨c, hc⟩ := hrd
    simp [copy_or_convert_file, hheic, hpe, hc, hcr]
  · intro h1 h2 h3 h4 h5
    have hdef : get_creation_datetime env path =
        (match exifEvidence env with
         | some dt => Except.ok dt
         | none =>
           match sidecarEvidence env path with
           | some dt => Except.ok dt
           | none =>
             match filenameEvidence env path with
             | some dt => Except.ok dt
             | none =>
               match dirEvidence env path with
               | some dt => Except.ok dt
               | none => mtimeEvidence env) := rfl
    rw [hdef, h1, h2, h3, h4]
    simp [mtimeEvidence, h5]

/-- Witness for the amended C2: a failing HEIC conversion is contained
(placement still returns normally), while a failing byte-copy escapes. -/
theorem c2_witness :
    (∃ fs', copy_or_convert_file penvConvertFail fsHeic "in/a.heic" "out/a.heic" =
      Except.ok fs') ∧
    copy_or_convert_file penvCopyFail fsPng "in/a.png" "out/b.png" =
      Except.error () := by
  constructor
  · exact (c2_error_containment_amended 2025 0 envMtime1975 penvConvertFail fsHeic
      "in/a.heic" "out/a.heic" "p").2.2.1 (by decide)
  · exact (c2_error_containment_amended 2025 0 envMtime1975 penvCopyFail fsPng
      "in/a.png" "out/b.png" "p").2.2.2.1 (by decide) (by decide) ⟨"X", by decide⟩ rfl

end GPhotos
